import Mathlib

/-!
# LightBnB data-access layer (`db/database.js`)

A shallow embedding of the six exported query functions of `db/database.js`
and of the dynamic filter builder inside `getAllProperties`, followed by
theorems about the query text, the bind-parameter list and the handling of
the execution collaborator's outcome.

Modelling conventions.

* JavaScript values that can stand in an options record are the primitives
  `undefined`, `null`, booleans, numbers and strings.  Numbers are the
  integer-valued ones, plus `NaN`.
* Two operations of the JavaScript engine are parameters of the functions
  that use them: `numberToString`, the string form of a number inside a
  template literal (the decimal numeral for small integers, exponent form
  from `1e21`), and `toLowerCase`, the string method.
* `db.query(text, params)` is a function from the request to either a result
  object carrying `rows` or an `Error` carrying `message`: one call, one
  settled promise.
* A function of the module returns a settled promise together with the lines
  it wrote with `console.log`.
-/

namespace LightBnB

set_option maxRecDepth 1000000

/-! ## Values -/

/-- JavaScript primitive values. -/
inductive JSValue where
  | undefined
  | null
  | bool (b : Bool)
  | num (n : Int)
  | nan
  | str (s : String)
  deriving DecidableEq, Repr

namespace JSValue

/-- The test `if (v)`: JavaScript's ToBoolean. -/
def truthy : JSValue → Bool
  | undefined => false
  | null => false
  | bool b => b
  | num n => n != 0
  | nan => false
  | str s => s != ""

/-- The conversion a template literal applies to an interpolated value;
`numberToString` is the engine's string form of a number. -/
def toStr (numberToString : Int → String) : JSValue → String
  | undefined => "undefined"
  | null => "null"
  | bool true => "true"
  | bool false => "false"
  | num n => numberToString n
  | nan => "NaN"
  | str s => s

end JSValue

/-- A result row: a flat mapping from column name to value. -/
abbrev Row := List (String × JSValue)

/-- The error object a rejected query carries. -/
structure Error where
  message : String
  deriving DecidableEq, Repr

/-- The result object a fulfilled query carries. -/
structure QueryResult where
  rows : List Row
  deriving DecidableEq, Repr

/-- The execution collaborator `db.query(text, params)` of the module
`./index`: every function below takes it as a parameter. -/
abbrev Db := String → List JSValue → Except Error QueryResult

/-- What a function of the module can resolve with. -/
inductive Ret where
  | undefined
  | null
  | row (r : Row)
  | rows (rs : List Row)
  deriving DecidableEq, Repr

/-- A settled promise. -/
inductive Promise where
  | resolved (v : Ret)
  | rejected (e : Error)
  deriving DecidableEq, Repr

/-- The observable outcome of a call: console lines and the settled promise. -/
structure Outcome where
  console : List String
  promise : Promise
  deriving DecidableEq, Repr

/-! ## The filter builder of `getAllProperties` -/

/-- The `options` argument of `getAllProperties`: the five fields it reads. -/
structure Options where
  city : JSValue := .undefined
  owner_id : JSValue := .undefined
  minimum_price_per_night : JSValue := .undefined
  maximum_price_per_night : JSValue := .undefined
  minimum_rating : JSValue := .undefined
  deriving DecidableEq, Repr

/-- The pair `(queryString, queryParams)` that `getAllProperties` assembles
and hands to `db.query` (source lines 115-172).  `limit = .undefined` is the
omitted argument, replaced by the default `10`; `numberToString` is the
engine's string form of a number, used by the template literal of line 129. -/
def getAllPropertiesQuery (numberToString : Int → String) (options : Options)
    (limit : JSValue) : String × List JSValue :=
  let limit := if limit = .undefined then JSValue.num 10 else limit
  let queryParams : List JSValue := []
  let queryString : String :=
    "\n  SELECT properties.*, avg(property_reviews.rating) as average_rating\n  FROM properties\n  LEFT JOIN property_reviews ON properties.id = property_id\n  "
  let (queryString, queryParams) :=
    if options.city.truthy then
      let queryParams := queryParams ++ [JSValue.str ("%" ++ options.city.toStr numberToString ++ "%")]
      (queryString ++ "WHERE city ILIKE $" ++ toString queryParams.length ++ " ", queryParams)
    else (queryString, queryParams)
  let (queryString, queryParams) :=
    if options.owner_id.truthy then
      let queryString := if queryParams.length = 0 then queryString ++ "WHERE " else queryString ++ "AND "
      let queryParams := queryParams ++ [options.owner_id]
      (queryString ++ "owner_id = $" ++ toString queryParams.length ++ " ", queryParams)
    else (queryString, queryParams)
  let (queryString, queryParams) :=
    if options.minimum_price_per_night.truthy then
      let queryString := if queryParams.length = 0 then queryString ++ "WHERE " else queryString ++ "AND "
      let queryParams := queryParams ++ [options.minimum_price_per_night]
      (queryString ++ "cost_per_night/100 > $" ++ toString queryParams.length ++ " ", queryParams)
    else (queryString, queryParams)
  let (queryString, queryParams) :=
    if options.maximum_price_per_night.truthy then
      let queryString := if queryParams.length = 0 then queryString ++ "WHERE " else queryString ++ "AND "
      let queryParams := queryParams ++ [options.maximum_price_per_night]
      (queryString ++ "cost_per_night/100 < $" ++ toString queryParams.length ++ " ", queryParams)
    else (queryString, queryParams)
  let queryString := queryString ++ "\n  GROUP BY properties.id"
  let (queryString, queryParams) :=
    if options.minimum_rating.truthy then
      let queryParams := queryParams ++ [options.minimum_rating]
      (queryString ++ "\n    HAVING avg(property_reviews.rating) >= $" ++ toString queryParams.length ++ " ",
        queryParams)
    else (queryString, queryParams)
  let queryParams := queryParams ++ [limit]
  let queryString := queryString ++ "\n  ORDER BY cost_per_night\n  LIMIT $" ++ toString queryParams.length ++ ";\n  "
  (queryString, queryParams)

/-- `getAllProperties(options, limit)` against the collaborator `db`
(source lines 115-179). -/
def getAllProperties (numberToString : Int → String) (db : Db) (options : Options)
    (limit : JSValue) : Outcome :=
  let q := getAllPropertiesQuery numberToString options limit
  match db q.1 q.2 with
  | .ok res => ⟨[], .resolved (.rows res.rows)⟩
  | .error err => ⟨[err.message], .resolved .undefined⟩

/-! ## The fixed statements -/

/-- The request `(text, params)` that `getUserWithEmail` passes to `db.query`
(source lines 12-16).  `toLowerCase` is the string method of the JavaScript
engine. -/
def getUserWithEmailQuery (toLowerCase : String → String) (email : String) :
    String × List JSValue :=
  ("\n    SELECT users.*\n    FROM users \n    WHERE email = $1\n    ",
    [JSValue.str (toLowerCase email)])

/-- `getUserWithEmail(email)` against the collaborator `db` (source lines
10-27). -/
def getUserWithEmail (toLowerCase : String → String) (db : Db) (email : String) : Outcome :=
  let q := getUserWithEmailQuery toLowerCase email
  match db q.1 q.2 with
  | .ok res =>
    ⟨[], .resolved
      (if res.rows.length = 0 then .null
       else match res.rows[0]? with
         | some r => .row r
         | none => .undefined)⟩
  | .error err => ⟨[err.message], .resolved .undefined⟩

/-- The request that `getUserWithId` passes to `db.query` (source lines
36-40). -/
def getUserWithIdQuery (id : JSValue) : String × List JSValue :=
  ("\n    SELECT users.*\n    FROM users \n    WHERE id = $1\n    ", [id])

/-- `getUserWithId(id)` against the collaborator `db` (source lines 34-51). -/
def getUserWithId (db : Db) (id : JSValue) : Outcome :=
  let q := getUserWithIdQuery id
  match db q.1 q.2 with
  | .ok res =>
    ⟨[], .resolved
      (if res.rows.length = 0 then .null
       else match res.rows[0]? with
         | some r => .row r
         | none => .undefined)⟩
  | .error err => ⟨[err.message], .resolved .undefined⟩

/-- The `user` argument of `addUser`: the three fields it reads. -/
structure User where
  name : JSValue := .undefined
  email : JSValue := .undefined
  password : JSValue := .undefined
  deriving DecidableEq, Repr

/-- The request that `addUser` passes to `db.query` (source lines 60-64). -/
def addUserQuery (user : User) : String × List JSValue :=
  ("\n    INSERT INTO users (name, email, password)\n    VALUES ($1, $2, $3) \n    RETURNING *;\n    ",
    [user.name, user.email, user.password])

/-- `addUser(user)` against the collaborator `db` (source lines 58-75). -/
def addUser (db : Db) (user : User) : Outcome :=
  let q := addUserQuery user
  match db q.1 q.2 with
  | .ok res =>
    ⟨[], .resolved
      (if res.rows.length = 0 then .null
       else match res.rows[0]? with
         | some r => .row r
         | none => .undefined)⟩
  | .error err => ⟨[err.message], .resolved .undefined⟩

/-- The request that `getAllReservations` passes to `db.query` (source lines
84-93).  `limit = .undefined` is the omitted argument, replaced by the
default `10`. -/
def getAllReservationsQuery (guest_id : JSValue) (limit : JSValue) : String × List JSValue :=
  let limit := if limit = .undefined then JSValue.num 10 else limit
  ("SELECT reservations.id, properties.*, reservations.start_date, reservations.end_date, AVG(rating) AS average_rating\n    FROM reservations\n    JOIN properties ON reservations.property_id = properties.id\n    JOIN property_reviews ON properties.id = property_reviews.property_id\n    WHERE reservations.guest_id = $1\n    GROUP BY properties.id, reservations.id\n    ORDER BY reservations.start_date\n    LIMIT $2;",
    [guest_id, limit])

/-- `getAllReservations(guest_id, limit)` against the collaborator `db`
(source lines 84-104). -/
def getAllReservations (db : Db) (guest_id : JSValue) (limit : JSValue) : Outcome :=
  let q := getAllReservationsQuery guest_id limit
  match db q.1 q.2 with
  | .ok res => ⟨[], .resolved (if res.rows.length = 0 then .null else .rows res.rows)⟩
  | .error err => ⟨[err.message], .resolved .undefined⟩

/-- The `property` argument of `addProperty`: the fourteen fields it reads. -/
structure Property where
  owner_id : JSValue := .undefined
  title : JSValue := .undefined
  description : JSValue := .undefined
  thumbnail_photo_url : JSValue := .undefined
  cover_photo_url : JSValue := .undefined
  cost_per_night : JSValue := .undefined
  parking_spaces : JSValue := .undefined
  number_of_bathrooms : JSValue := .undefined
  number_of_bedrooms : JSValue := .undefined
  country : JSValue := .undefined
  street : JSValue := .undefined
  city : JSValue := .undefined
  province : JSValue := .undefined
  post_code : JSValue := .undefined
  deriving DecidableEq, Repr

/-- The request that `addProperty` passes to `db.query` (source lines
188-192). -/
def addPropertyQuery (property : Property) : String × List JSValue :=
  ("\n    INSERT INTO properties (owner_id, title, description, thumbnail_photo_url, cover_photo_url, cost_per_night, parking_spaces, number_of_bathrooms, number_of_bedrooms, country, street, city, province, post_code)\n    VALUES ($1, $2, $3, $4, $5, $6, $7, $8, $9, $10, $11, $12, $13, $14)\n    RETURNING *;\n    ",
    [property.owner_id, property.title, property.description, property.thumbnail_photo_url,
      property.cover_photo_url, property.cost_per_night, property.parking_spaces,
      property.number_of_bathrooms, property.number_of_bedrooms, property.country,
      property.street, property.city, property.province, property.post_code])

/-- `addProperty(property)` against the collaborator `db` (source lines
186-203). -/
def addProperty (db : Db) (property : Property) : Outcome :=
  let q := addPropertyQuery property
  match db q.1 q.2 with
  | .ok res =>
    ⟨[], .resolved
      (if res.rows.length = 0 then .null
       else match res.rows[0]? with
         | some r => .row r
         | none => .undefined)⟩
  | .error err => ⟨[err.message], .resolved .undefined⟩

/-! ## Reading a query text -/

/-- State of the placeholder scanner: outside a placeholder, just after a
`$`, or inside the digits of one. -/
inductive Scan where
  | idle
  | dollar
  | digits (acc : Nat)

/-- The positional placeholders `$k` of a text, left to right. -/
def placeholdersAux : Scan → List Char → List Nat
  | .digits acc, [] => [acc]
  | _, [] => []
  | st, c :: cs =>
    if c.isDigit then
      match st with
      | .idle => placeholdersAux .idle cs
      | .dollar => placeholdersAux (.digits (c.toNat - 48)) cs
      | .digits acc => placeholdersAux (.digits (acc * 10 + (c.toNat - 48))) cs
    else
      (match st with
        | .digits acc => [acc]
        | _ => []) ++ placeholdersAux (if c = '$' then .dollar else .idle) cs

/-- The positional placeholders of a query text. -/
def placeholders (text : String) : List Nat :=
  placeholdersAux .idle text.toList

/-- Number of positions of `text` at which `word` starts. -/
def countAt (word : List Char) : List Char → Nat
  | [] => 0
  | c :: cs => (if word.isPrefixOf (c :: cs) then 1 else 0) + countAt word cs

/-- Number of occurrences of `word` in `text`. -/
def occurrences (word text : String) : Nat :=
  countAt word.toList text.toList



/-! ## Vocabulary of the properties -/

/-- A field is set when the record gives it a value: neither `undefined`
nor `null`. -/
def JSValue.isSet : JSValue → Bool
  | .undefined => false
  | .null => false
  | _ => true

/-- The limit that reaches the parameter list: the argument, or `10` when
it is omitted. -/
def effectiveLimit (limit : JSValue) : JSValue :=
  if limit = .undefined then JSValue.num 10 else limit

/-- Which of the five filters pass the test `if (options.field)`, in the
fixed order city, owner, minimum price, maximum price, minimum rating. -/
def Options.truthyPattern (o : Options) : List Bool :=
  [o.city.truthy, o.owner_id.truthy, o.minimum_price_per_night.truthy,
    o.maximum_price_per_night.truthy, o.minimum_rating.truthy]

/-- Which of the five filters are set, in the fixed order. -/
def Options.setPattern (o : Options) : List Bool :=
  [o.city.isSet, o.owner_id.isSet, o.minimum_price_per_night.isSet,
    o.maximum_price_per_night.isSet, o.minimum_rating.isSet]

/-- Number of `true` entries of a pattern. -/
def countTrue (p : List Bool) : Nat :=
  (p.filter id).length

/-- The parameter list as the filters that pass the truthiness test give it:
one value for each, in the fixed order, then the limit. -/
def paramsOfTruthyFilters (numberToString : Int → String) (o : Options) (limit : JSValue) :
    List JSValue :=
  (if o.city.truthy then [JSValue.str ("%" ++ o.city.toStr numberToString ++ "%")] else [])
    ++ (if o.owner_id.truthy then [o.owner_id] else [])
    ++ (if o.minimum_price_per_night.truthy then [o.minimum_price_per_night] else [])
    ++ (if o.maximum_price_per_night.truthy then [o.maximum_price_per_night] else [])
    ++ (if o.minimum_rating.truthy then [o.minimum_rating] else [])
    ++ [effectiveLimit limit]

/-- The parameter list as the filters that are set would give it: one value
for each set filter, in the fixed order, then the limit. -/
def paramsOfSetFilters (numberToString : Int → String) (o : Options) (limit : JSValue) :
    List JSValue :=
  (if o.city.isSet then [JSValue.str ("%" ++ o.city.toStr numberToString ++ "%")] else [])
    ++ (if o.owner_id.isSet then [o.owner_id] else [])
    ++ (if o.minimum_price_per_night.isSet then [o.minimum_price_per_night] else [])
    ++ (if o.maximum_price_per_night.isSet then [o.maximum_price_per_night] else [])
    ++ (if o.minimum_rating.isSet then [o.minimum_rating] else [])
    ++ [effectiveLimit limit]

/-- The condition each filter contributes, up to its placeholder, in the
fixed order. -/
def filterConditions : List String :=
  ["city ILIKE $", "owner_id = $", "cost_per_night/100 > $", "cost_per_night/100 < $",
    "avg(property_reviews.rating) >= $"]

/-- Number of filter clauses in a text: occurrences of the five conditions. -/
def filterClauses (text : String) : Nat :=
  (filterConditions.map (fun c => occurrences c text)).sum

/-- Number of filter clauses of a text that directly follow `keyword`. -/
def introducedBy (keyword text : String) : Nat :=
  (filterConditions.map (fun c => occurrences (keyword ++ c) text)).sum

/-- Which of the four pre-grouping filters pass the test
`if (options.field)`, in the fixed order city, owner, minimum price, maximum
price. -/
def Options.groupPattern (o : Options) : List Bool :=
  [o.city.truthy, o.owner_id.truthy, o.minimum_price_per_night.truthy,
    o.maximum_price_per_night.truthy]

/-- Which of the four pre-grouping filters are set, in the fixed order. -/
def Options.groupSetPattern (o : Options) : List Bool :=
  [o.city.isSet, o.owner_id.isSet, o.minimum_price_per_night.isSet,
    o.maximum_price_per_night.isSet]

/-- A collaborator that rejects every request with the given message. -/
def failingDb (message : String) : Db :=
  fun _ _ => .error ⟨message⟩

/-- A collaborator that fulfils every request with the given rows. -/
def answeringDb (rows : List Row) : Db :=
  fun _ _ => .ok ⟨rows⟩

/-- The conditions of the pre-grouping filters selected by four flags, in the
fixed order city, owner, minimum price, maximum price. -/
def groupConditionsOf (c w a b : Bool) : List String :=
  (if c then ["city ILIKE $"] else []) ++ (if w then ["owner_id = $"] else [])
    ++ (if a then ["cost_per_night/100 > $"] else [])
    ++ (if b then ["cost_per_night/100 < $"] else [])

/-- The conditions of the pre-grouping filters of `o` that pass the
truthiness test, in the fixed order. -/
def Options.groupConditions (o : Options) : List String :=
  groupConditionsOf o.city.truthy o.owner_id.truthy o.minimum_price_per_night.truthy
    o.maximum_price_per_night.truthy

/-- The options record whose five fields are the given booleans. -/
def Options.ofFlags (c w a b r : Bool) : Options :=
  ⟨.bool c, .bool w, .bool a, .bool b, .bool r⟩

/-- The decimal numeral of an integer: the engine's string form of a number
for the small integers of the examples below. -/
def decimalNumeral (n : Int) : String :=
  toString n

/-- The query text `getAllProperties` builds for the record of five flags. -/
def flagText (c w a b r : Bool) : String :=
  (getAllPropertiesQuery decimalNumeral (Options.ofFlags c w a b r) .undefined).1

/-- Lower-casing of the letters `A`-`Z`, the other characters unchanged. -/
def asciiLower (s : String) : String :=
  String.mk (s.toList.map Char.toLower)

/-- Whether every character of the string is an ASCII character. -/
def isAscii (s : String) : Bool :=
  s.toList.all (fun c => c.toNat < 128)

/-- Two characters are the same letter in possibly different case: the same
character, or one of `A`-`Z` and its small letter, `32` code points above. -/
def sameLetter (a b : Char) : Bool :=
  a == b
    || (65 ≤ a.toNat && a.toNat ≤ 90 && b.toNat == a.toNat + 32)
    || (65 ≤ b.toNat && b.toNat ≤ 90 && a.toNat == b.toNat + 32)

/-- Two character sequences of the same length that agree position by
position up to the case of a letter. -/
def differOnlyInCaseAux : List Char → List Char → Bool
  | [], [] => true
  | a :: as, b :: bs => sameLetter a b && differOnlyInCaseAux as bs
  | _, _ => false

/-- Two strings that differ only in letter case. -/
def differOnlyInCase (s t : String) : Bool :=
  differOnlyInCaseAux s.toList t.toList

/-- What a single-record function resolves with, as a function of the
collaborator's answer: `null` for no rows, the first row otherwise, and
`undefined` after logging the message of an error. -/
def singleRecordOutcome : Except Error QueryResult → Outcome
  | .ok ⟨[]⟩ => ⟨[], .resolved .null⟩
  | .ok ⟨r :: _⟩ => ⟨[], .resolved (.row r)⟩
  | .error err => ⟨[err.message], .resolved .undefined⟩

/-! ## Shared lemmas -/

theorem toLower_eq_of_sameLetter (a b : Char) (h : sameLetter a b = true) :
    a.toLower = b.toLower := by
  simp only [sameLetter, Bool.or_eq_true, Bool.and_eq_true, beq_iff_eq, decide_eq_true_eq] at h
  rcases h with (h | ⟨⟨h1, h2⟩, h3⟩) | ⟨⟨h1, h2⟩, h3⟩
  · rw [h]
  · have ha : a.toLower = Char.ofNat (a.toNat + 32) := by
      simp [Char.toLower, h1, h2]
    have hb : b.toLower = b := by
      have : ¬ (b.toNat ≤ 90) := by omega
      simp [Char.toLower, this]
    rw [ha, hb, ← h3, Char.ofNat_toNat]
  · have hb : b.toLower = Char.ofNat (b.toNat + 32) := by
      simp [Char.toLower, h1, h2]
    have ha : a.toLower = a := by
      have : ¬ (a.toNat ≤ 90) := by omega
      simp [Char.toLower, this]
    rw [ha, hb, ← h3, Char.ofNat_toNat]

theorem map_toLower_eq_of_differOnlyInCaseAux :
    ∀ (as bs : List Char), differOnlyInCaseAux as bs = true →
      as.map Char.toLower = bs.map Char.toLower
  | [], [], _ => rfl
  | [], _ :: _, h => by simp [differOnlyInCaseAux] at h
  | _ :: _, [], h => by simp [differOnlyInCaseAux] at h
  | a :: as, b :: bs, h => by
    simp only [differOnlyInCaseAux, Bool.and_eq_true] at h
    simp only [List.map_cons, List.cons.injEq]
    exact ⟨toLower_eq_of_sameLetter a b h.1,
      map_toLower_eq_of_differOnlyInCaseAux as bs h.2⟩

/-- Strings that differ only in letter case have the same lower-cased form. -/
theorem asciiLower_eq_of_differOnlyInCase (s t : String) (h : differOnlyInCase s t = true) :
    asciiLower s = asciiLower t := by
  simp only [asciiLower]
  rw [map_toLower_eq_of_differOnlyInCaseAux _ _ h]


theorem truthy_bool (b : Bool) : (JSValue.bool b).truthy = b := rfl

theorem truthy_of_not_isSet (v : JSValue) (h : v.isSet = false) : v.truthy = false := by
  cases v <;> simp_all [JSValue.isSet, JSValue.truthy]

/-- The query text is the text built for the truthiness flags of the record. -/
theorem query_text_flags (numberToString : Int → String) (o : Options) (l : JSValue) :
    (getAllPropertiesQuery numberToString o l).1 =
      flagText o.city.truthy o.owner_id.truthy o.minimum_price_per_night.truthy
        o.maximum_price_per_night.truthy o.minimum_rating.truthy := by
  cases h1 : o.city.truthy <;> cases h2 : o.owner_id.truthy <;>
    cases h3 : o.minimum_price_per_night.truthy <;>
    cases h4 : o.maximum_price_per_night.truthy <;>
    cases h5 : o.minimum_rating.truthy <;>
    simp [getAllPropertiesQuery, flagText, Options.ofFlags, truthy_bool, h1, h2, h3, h4, h5]

/-- The parameter list is the list the truthy filters give. -/
theorem query_params_truthy (numberToString : Int → String) (o : Options) (l : JSValue) :
    (getAllPropertiesQuery numberToString o l).2 = paramsOfTruthyFilters numberToString o l := by
  cases h1 : o.city.truthy <;> cases h2 : o.owner_id.truthy <;>
    cases h3 : o.minimum_price_per_night.truthy <;>
    cases h4 : o.maximum_price_per_night.truthy <;>
    cases h5 : o.minimum_rating.truthy <;>
    simp [getAllPropertiesQuery, paramsOfTruthyFilters, effectiveLimit, h1, h2, h3, h4, h5]

/-- Length of the parameter list: one per truthy filter, and the limit. -/
theorem query_params_length (numberToString : Int → String) (o : Options) (l : JSValue) :
    (getAllPropertiesQuery numberToString o l).2.length = countTrue o.truthyPattern + 1 := by
  rw [query_params_truthy]
  cases h1 : o.city.truthy <;> cases h2 : o.owner_id.truthy <;>
    cases h3 : o.minimum_price_per_night.truthy <;>
    cases h4 : o.maximum_price_per_night.truthy <;>
    cases h5 : o.minimum_rating.truthy <;>
    simp [paramsOfTruthyFilters, Options.truthyPattern, countTrue, h1, h2, h3, h4, h5]

/-- The placeholders of the text built for five flags. -/
theorem flagText_placeholders (c w a b r : Bool) :
    placeholders (flagText c w a b r) = List.range' 1 (countTrue [c, w, a, b, r] + 1) := by
  cases c <;> cases w <;> cases a <;> cases b <;> cases r <;> decide!

/-- Occurrences of each filter condition in the text built for five flags. -/
theorem flagText_conditions (c w a b r : Bool) :
    occurrences "city ILIKE $" (flagText c w a b r) = c.toNat ∧
    occurrences "owner_id = $" (flagText c w a b r) = w.toNat ∧
    occurrences "cost_per_night/100 > $" (flagText c w a b r) = a.toNat ∧
    occurrences "cost_per_night/100 < $" (flagText c w a b r) = b.toNat ∧
    occurrences "avg(property_reviews.rating) >= $" (flagText c w a b r) = r.toNat := by
  cases c <;> cases w <;> cases a <;> cases b <;> cases r <;> decide!

/-- Keywords and clauses of the text built for five flags of which one is on. -/
theorem flagText_single (c w a b r : Bool) (h : countTrue [c, w, a, b, r] = 1) :
    filterClauses (flagText c w a b r) = 1 ∧
    occurrences "AND" (flagText c w a b r) = 0 ∧
    occurrences "WHERE" (flagText c w a b r) = (if r then 0 else 1) ∧
    introducedBy "WHERE " (flagText c w a b r) = (if r then 0 else 1) ∧
    occurrences "HAVING" (flagText c w a b r) = (if r then 1 else 0) ∧
    introducedBy "HAVING " (flagText c w a b r) = (if r then 1 else 0) := by
  revert h
  cases c <;> cases w <;> cases a <;> cases b <;> cases r <;> decide!

/-- Keywords of the text built for five flags of which two or more of the
first four are on. -/
theorem flagText_group (c w a b r : Bool) (h : 2 ≤ countTrue [c, w, a, b]) :
    occurrences "WHERE" (flagText c w a b r) = 1 ∧
    occurrences "AND" (flagText c w a b r) = countTrue [c, w, a, b] - 1 ∧
    (∀ x ∈ (groupConditionsOf c w a b).take 1,
      occurrences ("WHERE " ++ x) (flagText c w a b r) = 1 ∧
      occurrences ("AND " ++ x) (flagText c w a b r) = 0) ∧
    (∀ x ∈ (groupConditionsOf c w a b).drop 1,
      occurrences ("AND " ++ x) (flagText c w a b r) = 1 ∧
      occurrences ("WHERE " ++ x) (flagText c w a b r) = 0) := by
  revert h
  cases c <;> cases w <;> cases a <;> cases b <;> cases r <;> decide!

/-- Keywords and clauses of the text built when no flag is on. -/
theorem flagText_none :
    occurrences "WHERE" (flagText false false false false false) = 0 ∧
    occurrences "HAVING" (flagText false false false false false) = 0 ∧
    filterClauses (flagText false false false false false) = 0 := by
  decide!

/-! ## Theorems -/

/-- Claim C1: for every options record and every limit, the placeholders of
the query text that `getAllProperties` passes to `db.query`, read left to
right, are exactly `$1, $2, ..., $n` where `n` is the length of the parameter
list passed with it; in particular there are as many placeholders as
parameters. -/
theorem getAllProperties_placeholders_positional (numberToString : Int → String) (o : Options) (limit : JSValue) :
    placeholders (getAllPropertiesQuery numberToString o limit).1
        = List.range' 1 (getAllPropertiesQuery numberToString o limit).2.length
      ∧ (placeholders (getAllPropertiesQuery numberToString o limit).1).length
        = (getAllPropertiesQuery numberToString o limit).2.length := by
  have h : placeholders (getAllPropertiesQuery numberToString o limit).1
      = List.range' 1 (getAllPropertiesQuery numberToString o limit).2.length := by
    rw [query_text_flags, query_params_length, flagText_placeholders]
    rfl
  exact ⟨h, by rw [h, List.length_range']⟩

/-- Claim C2, counterexample: with `minimum_price_per_night` set to `0` and
`maximum_price_per_night` set to `150`, limit `5`, the set filters would give
the parameters `[0, 150, 5]`, but `getAllProperties` passes `[150, 5]` and
emits no clause for the minimum price. -/
theorem getAllProperties_params_of_set_filters_fails :
    paramsOfSetFilters decimalNumeral
        { minimum_price_per_night := .num 0, maximum_price_per_night := .num 150 } (.num 5)
      = [.num 0, .num 150, .num 5]
    ∧ (getAllPropertiesQuery decimalNumeral
        { minimum_price_per_night := .num 0, maximum_price_per_night := .num 150 } (.num 5)).2
      = [.num 150, .num 5]
    ∧ (getAllPropertiesQuery decimalNumeral
        { minimum_price_per_night := .num 0, maximum_price_per_night := .num 150 } (.num 5)).2
      ≠ paramsOfSetFilters decimalNumeral
        { minimum_price_per_night := .num 0, maximum_price_per_night := .num 150 } (.num 5) := by
  decide

/-- Claim C2, amended: for every options record and every limit, the
parameter list `getAllProperties` passes is exactly the values of the filters
that pass the truthiness test, in the fixed order city (wrapped as `%city%`),
owner_id, minimum_price_per_night, maximum_price_per_night, minimum_rating,
followed by the limit (`10` when omitted); each such filter contributes
exactly one clause and every other filter none.  The wrapped city is
`%` ++ the template-literal string of the city ++ `%`, for whatever string
form the engine gives a number.  The two examples of the claim,
`[50, 150, 5]` and `[4, 10]`, and `{city: "van"}` with `["%van%", 10]` are
instances. -/
theorem getAllProperties_params_of_truthy_filters (numberToString : Int → String) (o : Options) (limit : JSValue) :
    (getAllPropertiesQuery numberToString o limit).2 = paramsOfTruthyFilters numberToString o limit
    ∧ occurrences "city ILIKE $" (getAllPropertiesQuery numberToString o limit).1 = o.city.truthy.toNat
    ∧ occurrences "owner_id = $" (getAllPropertiesQuery numberToString o limit).1 = o.owner_id.truthy.toNat
    ∧ occurrences "cost_per_night/100 > $" (getAllPropertiesQuery numberToString o limit).1
        = o.minimum_price_per_night.truthy.toNat
    ∧ occurrences "cost_per_night/100 < $" (getAllPropertiesQuery numberToString o limit).1
        = o.maximum_price_per_night.truthy.toNat
    ∧ occurrences "avg(property_reviews.rating) >= $" (getAllPropertiesQuery numberToString o limit).1
        = o.minimum_rating.truthy.toNat
    ∧ (getAllPropertiesQuery numberToString
        { minimum_price_per_night := .num 50, maximum_price_per_night := .num 150 } (.num 5)).2
      = [.num 50, .num 150, .num 5]
    ∧ (getAllPropertiesQuery numberToString { minimum_rating := .num 4 } (.num 10)).2
      = [.num 4, .num 10]
    ∧ (getAllPropertiesQuery numberToString { city := .str "van" } .undefined).2
      = [.str "%van%", .num 10] := by
  refine ⟨query_params_truthy numberToString o limit, ?_, ?_, ?_, ?_, ?_, rfl, rfl, rfl⟩ <;>
    rw [query_text_flags]
  · exact (flagText_conditions _ _ _ _ _).1
  · exact (flagText_conditions _ _ _ _ _).2.1
  · exact (flagText_conditions _ _ _ _ _).2.2.1
  · exact (flagText_conditions _ _ _ _ _).2.2.2.1
  · exact (flagText_conditions _ _ _ _ _).2.2.2.2

/-- Claim C3, counterexample: with `minimum_rating` alone set to `4` the one
filter clause is introduced by `HAVING` and the text has no `WHERE`; with
`owner_id` alone set to `0` the text has no filter clause at all and the
limit is the only parameter. -/
theorem getAllProperties_single_set_filter_fails :
    (countTrue (Options.setPattern { minimum_rating := .num 4 }) = 1
      ∧ occurrences "WHERE" (getAllPropertiesQuery decimalNumeral { minimum_rating := .num 4 } (.num 10)).1 = 0
      ∧ occurrences "HAVING" (getAllPropertiesQuery decimalNumeral { minimum_rating := .num 4 } (.num 10)).1 = 1)
    ∧ (countTrue (Options.setPattern { owner_id := .num 0 }) = 1
      ∧ filterClauses (getAllPropertiesQuery decimalNumeral { owner_id := .num 0 } (.num 10)).1 = 0
      ∧ (getAllPropertiesQuery decimalNumeral { owner_id := .num 0 } (.num 10)).2 = [.num 10]) := by
  decide!

/-- Claim C3, amended: for every options record in which exactly one of the
five filters passes the truthiness test, and every limit, the query text has
exactly one filter clause and no `AND`; that clause is introduced by `WHERE`
when the filter is city, owner_id or a price bound, and by `HAVING` when it is
minimum_rating; and the parameter list has exactly one element before the
limit. -/
theorem getAllProperties_single_truthy_filter (numberToString : Int → String) (o : Options) (limit : JSValue)
    (h : countTrue o.truthyPattern = 1) :
    filterClauses (getAllPropertiesQuery numberToString o limit).1 = 1
    ∧ occurrences "AND" (getAllPropertiesQuery numberToString o limit).1 = 0
    ∧ occurrences "WHERE" (getAllPropertiesQuery numberToString o limit).1
        = (if o.minimum_rating.truthy then 0 else 1)
    ∧ introducedBy "WHERE " (getAllPropertiesQuery numberToString o limit).1
        = (if o.minimum_rating.truthy then 0 else 1)
    ∧ occurrences "HAVING" (getAllPropertiesQuery numberToString o limit).1
        = (if o.minimum_rating.truthy then 1 else 0)
    ∧ introducedBy "HAVING " (getAllPropertiesQuery numberToString o limit).1
        = (if o.minimum_rating.truthy then 1 else 0)
    ∧ ∃ v, (getAllPropertiesQuery numberToString o limit).2 = [v, effectiveLimit limit] := by
  have ht := flagText_single _ _ _ _ _ h
  rw [← query_text_flags numberToString o limit] at ht
  obtain ⟨t1, t2, t3, t4, t5, t6⟩ := ht
  refine ⟨t1, t2, t3, t4, t5, t6, ?_⟩
  rw [query_params_truthy]
  revert h
  cases h1 : o.city.truthy <;> cases h2 : o.owner_id.truthy <;>
    cases h3 : o.minimum_price_per_night.truthy <;>
    cases h4 : o.maximum_price_per_night.truthy <;>
    cases h5 : o.minimum_rating.truthy <;>
    simp [paramsOfTruthyFilters, Options.truthyPattern, countTrue, h1, h2, h3, h4, h5]

/-- Claim C3, witness: the record `{city: "van"}` with limit `10`. -/
theorem getAllProperties_single_truthy_filter_witness :
    countTrue (Options.truthyPattern { city := .str "van" }) = 1
    ∧ filterClauses (getAllPropertiesQuery decimalNumeral { city := .str "van" } (.num 10)).1 = 1
    ∧ occurrences "WHERE" (getAllPropertiesQuery decimalNumeral { city := .str "van" } (.num 10)).1 = 1
    ∧ ∃ v, (getAllPropertiesQuery decimalNumeral { city := .str "van" } (.num 10)).2
        = [v, effectiveLimit (.num 10)] :=
  ⟨by decide,
    (getAllProperties_single_truthy_filter decimalNumeral { city := .str "van" } (.num 10) (by decide)).1,
    (getAllProperties_single_truthy_filter decimalNumeral { city := .str "van" } (.num 10) (by decide)).2.2.1,
    (getAllProperties_single_truthy_filter decimalNumeral { city := .str "van" } (.num 10)
      (by decide)).2.2.2.2.2.2⟩

/-- Claim C4, counterexample: with `minimum_price_per_night` set to `0` and
`maximum_price_per_night` set to `150`, two filters of the group are set, yet
the text has no `AND`, and its one `WHERE` introduces the maximum-price
clause, not the minimum-price clause. -/
theorem getAllProperties_group_of_set_filters_fails :
    countTrue (Options.groupSetPattern
        { minimum_price_per_night := .num 0, maximum_price_per_night := .num 150 }) = 2
    ∧ occurrences "AND" (getAllPropertiesQuery decimalNumeral
        { minimum_price_per_night := .num 0, maximum_price_per_night := .num 150 } (.num 5)).1 = 0
    ∧ occurrences "WHERE cost_per_night/100 > $" (getAllPropertiesQuery decimalNumeral
        { minimum_price_per_night := .num 0, maximum_price_per_night := .num 150 } (.num 5)).1 = 0
    ∧ occurrences "WHERE cost_per_night/100 < $" (getAllPropertiesQuery decimalNumeral
        { minimum_price_per_night := .num 0, maximum_price_per_night := .num 150 } (.num 5)).1
      = 1 := by
  decide!

/-- Claim C4, amended: for every options record in which two or more of
city, owner_id, minimum_price_per_night, maximum_price_per_night pass the
truthiness test, the query text contains `WHERE` exactly once, introducing
the first such filter in the fixed order, and each later such filter is
introduced by `AND`, so that the number of `AND`s is the number of such
filters minus one. -/
theorem getAllProperties_group_of_truthy_filters (numberToString : Int → String) (o : Options) (limit : JSValue)
    (h : 2 ≤ countTrue o.groupPattern) :
    occurrences "WHERE" (getAllPropertiesQuery numberToString o limit).1 = 1
    ∧ occurrences "AND" (getAllPropertiesQuery numberToString o limit).1 = countTrue o.groupPattern - 1
    ∧ (∀ x ∈ o.groupConditions.take 1,
        occurrences ("WHERE " ++ x) (getAllPropertiesQuery numberToString o limit).1 = 1
        ∧ occurrences ("AND " ++ x) (getAllPropertiesQuery numberToString o limit).1 = 0)
    ∧ (∀ x ∈ o.groupConditions.drop 1,
        occurrences ("AND " ++ x) (getAllPropertiesQuery numberToString o limit).1 = 1
        ∧ occurrences ("WHERE " ++ x) (getAllPropertiesQuery numberToString o limit).1 = 0) := by
  rw [query_text_flags]
  exact flagText_group _ _ _ _ _ h

/-- Claim C4, witness: the record `{owner_id: 7, maximum_price_per_night: 150}`,
whose first filter of the group is not the city. -/
theorem getAllProperties_group_of_truthy_filters_witness :
    2 ≤ countTrue (Options.groupPattern
        { owner_id := .num 7, maximum_price_per_night := .num 150 })
    ∧ occurrences "WHERE" (getAllPropertiesQuery decimalNumeral
        { owner_id := .num 7, maximum_price_per_night := .num 150 } .undefined).1 = 1
    ∧ occurrences "AND" (getAllPropertiesQuery decimalNumeral
        { owner_id := .num 7, maximum_price_per_night := .num 150 } .undefined).1 = 1 :=
  ⟨by decide,
    (getAllProperties_group_of_truthy_filters decimalNumeral
      { owner_id := .num 7, maximum_price_per_night := .num 150 } .undefined (by decide)).1,
    (getAllProperties_group_of_truthy_filters decimalNumeral
      { owner_id := .num 7, maximum_price_per_night := .num 150 } .undefined (by decide)).2.1⟩

/-- Claim C5: for every options record with none of the five filter fields
set and every limit, the query text contains neither `WHERE` nor `HAVING`
(and no filter clause), and the parameter list is the one-element list
holding the limit, which is `10` when the caller omits it. -/
theorem getAllProperties_no_filter (numberToString : Int → String) (o : Options) (limit : JSValue)
    (h : countTrue o.setPattern = 0) :
    occurrences "WHERE" (getAllPropertiesQuery numberToString o limit).1 = 0
    ∧ occurrences "HAVING" (getAllPropertiesQuery numberToString o limit).1 = 0
    ∧ filterClauses (getAllPropertiesQuery numberToString o limit).1 = 0
    ∧ (getAllPropertiesQuery numberToString o limit).2 = [effectiveLimit limit]
    ∧ (getAllPropertiesQuery numberToString o .undefined).2 = [.num 10] := by
  have hs : o.city.isSet = false ∧ o.owner_id.isSet = false
      ∧ o.minimum_price_per_night.isSet = false ∧ o.maximum_price_per_night.isSet = false
      ∧ o.minimum_rating.isSet = false := by
    simp only [Options.setPattern, countTrue] at h
    cases h1 : o.city.isSet <;> cases h2 : o.owner_id.isSet <;>
      cases h3 : o.minimum_price_per_night.isSet <;>
      cases h4 : o.maximum_price_per_night.isSet <;>
      cases h5 : o.minimum_rating.isSet <;> simp_all
  obtain ⟨s1, s2, s3, s4, s5⟩ := hs
  have h1 := truthy_of_not_isSet _ s1
  have h2 := truthy_of_not_isSet _ s2
  have h3 := truthy_of_not_isSet _ s3
  have h4 := truthy_of_not_isSet _ s4
  have h5 := truthy_of_not_isSet _ s5
  have hp : ∀ l, (getAllPropertiesQuery numberToString o l).2 = [effectiveLimit l] := by
    intro l
    rw [query_params_truthy]
    simp [paramsOfTruthyFilters, h1, h2, h3, h4, h5]
  rw [query_text_flags, h1, h2, h3, h4, h5]
  exact ⟨flagText_none.1, flagText_none.2.1, flagText_none.2.2, hp limit, hp .undefined⟩

/-- Claim C5, witness: the empty record `{}` with the limit omitted. -/
theorem getAllProperties_no_filter_witness :
    countTrue (Options.setPattern {}) = 0
    ∧ occurrences "WHERE" (getAllPropertiesQuery decimalNumeral {} .undefined).1 = 0
    ∧ occurrences "HAVING" (getAllPropertiesQuery decimalNumeral {} .undefined).1 = 0
    ∧ (getAllPropertiesQuery decimalNumeral {} .undefined).2 = [.num 10] :=
  ⟨by decide,
    (getAllProperties_no_filter decimalNumeral {} .undefined (by decide)).1,
    (getAllProperties_no_filter decimalNumeral {} .undefined (by decide)).2.1,
    (getAllProperties_no_filter decimalNumeral {} .undefined (by decide)).2.2.2.2⟩

/-- Claim C10, counterexample: the records `{minimum_rating: 0}` and
`{minimum_rating: 4}` set the same filter, yet their query texts differ: the
first has no `HAVING` clause, the second has one. -/
theorem getAllProperties_text_of_set_filters_fails :
    Options.setPattern { minimum_rating := .num 0 }
      = Options.setPattern { minimum_rating := .num 4 }
    ∧ (getAllPropertiesQuery decimalNumeral { minimum_rating := .num 0 } (.num 10)).1
      ≠ (getAllPropertiesQuery decimalNumeral { minimum_rating := .num 4 } (.num 10)).1 := by
  decide!

/-- Claim C10, amended: for any two options records in which the same
filters pass the truthiness test, and any two limits, the query texts of
`getAllProperties` are identical character for character, whatever the
values of the filters and of the limit are. -/
theorem getAllProperties_text_of_truthy_filters (numberToString : Int → String) (o₁ o₂ : Options) (limit₁ limit₂ : JSValue)
    (h : o₁.truthyPattern = o₂.truthyPattern) :
    (getAllPropertiesQuery numberToString o₁ limit₁).1 = (getAllPropertiesQuery numberToString o₂ limit₂).1 := by
  simp only [Options.truthyPattern, List.cons.injEq, and_true] at h
  obtain ⟨h1, h2, h3, h4, h5⟩ := h
  rw [query_text_flags, query_text_flags, h1, h2, h3, h4, h5]

/-- Claim C10, witness: two records that set all five filters to different
truthy values, with different limits. -/
theorem getAllProperties_text_of_truthy_filters_witness :
    Options.truthyPattern ⟨.str "van", .num 3, .num 50, .num 150, .num 4⟩
      = Options.truthyPattern ⟨.str "x; DROP TABLE users", .str "9", .num 1, .num 2, .bool true⟩
    ∧ (getAllPropertiesQuery decimalNumeral ⟨.str "van", .num 3, .num 50, .num 150, .num 4⟩ (.num 10)).1
      = (getAllPropertiesQuery decimalNumeral
          ⟨.str "x; DROP TABLE users", .str "9", .num 1, .num 2, .bool true⟩ (.num 500)).1 :=
  ⟨by decide, getAllProperties_text_of_truthy_filters decimalNumeral _ _ _ _ (by decide)⟩

/-- Claim C6: for each of the six exported functions and every input, if
the execution collaborator rejects the request the function issues with an
error, the function's promise does not reject: it resolves with `undefined`,
after writing the error's message to the console. -/
theorem exported_functions_swallow_failure (numberToString : Int → String)
    (toLowerCase : String → String) (db : Db)
    (err : Error) :
    (∀ email : String,
      db (getUserWithEmailQuery toLowerCase email).1 (getUserWithEmailQuery toLowerCase email).2
          = .error err →
        getUserWithEmail toLowerCase db email = ⟨[err.message], .resolved .undefined⟩)
    ∧ (∀ id : JSValue,
      db (getUserWithIdQuery id).1 (getUserWithIdQuery id).2 = .error err →
        getUserWithId db id = ⟨[err.message], .resolved .undefined⟩)
    ∧ (∀ user : User,
      db (addUserQuery user).1 (addUserQuery user).2 = .error err →
        addUser db user = ⟨[err.message], .resolved .undefined⟩)
    ∧ (∀ guest_id limit : JSValue,
      db (getAllReservationsQuery guest_id limit).1 (getAllReservationsQuery guest_id limit).2
          = .error err →
        getAllReservations db guest_id limit = ⟨[err.message], .resolved .undefined⟩)
    ∧ (∀ (options : Options) (limit : JSValue),
      db (getAllPropertiesQuery numberToString options limit).1 (getAllPropertiesQuery numberToString options limit).2
          = .error err →
        getAllProperties numberToString db options limit = ⟨[err.message], .resolved .undefined⟩)
    ∧ (∀ property : Property,
      db (addPropertyQuery property).1 (addPropertyQuery property).2 = .error err →
        addProperty db property = ⟨[err.message], .resolved .undefined⟩) := by
  refine ⟨?_, ?_, ?_, ?_, ?_, ?_⟩
  · intro email h
    simp only [getUserWithEmail, h]
  · intro id h
    simp only [getUserWithId, h]
  · intro user h
    simp only [addUser, h]
  · intro guest_id limit h
    simp only [getAllReservations, h]
  · intro options limit h
    simp only [getAllProperties, h]
  · intro property h
    simp only [addProperty, h]

/-- Claim C6, witness: a collaborator that rejects every request with the
message `connection refused`; all six functions resolve with `undefined`. -/
theorem exported_functions_swallow_failure_witness :
    (getUserWithEmail asciiLower (failingDb "connection refused") "Bob@Example.com").promise
      = .resolved .undefined
    ∧ (getUserWithId (failingDb "connection refused") (.num 1)).promise = .resolved .undefined
    ∧ (addUser (failingDb "connection refused") {}).promise = .resolved .undefined
    ∧ (getAllReservations (failingDb "connection refused") (.num 1) .undefined).promise
      = .resolved .undefined
    ∧ (getAllProperties decimalNumeral (failingDb "connection refused") { city := .str "van" }
        .undefined).promise = .resolved .undefined
    ∧ (addProperty (failingDb "connection refused") {}).promise = .resolved .undefined :=
  ⟨congrArg Outcome.promise
      ((exported_functions_swallow_failure decimalNumeral asciiLower (failingDb "connection refused")
        ⟨"connection refused"⟩).1 "Bob@Example.com" rfl),
    congrArg Outcome.promise
      ((exported_functions_swallow_failure decimalNumeral asciiLower (failingDb "connection refused")
        ⟨"connection refused"⟩).2.1 (.num 1) rfl),
    congrArg Outcome.promise
      ((exported_functions_swallow_failure decimalNumeral asciiLower (failingDb "connection refused")
        ⟨"connection refused"⟩).2.2.1 {} rfl),
    congrArg Outcome.promise
      ((exported_functions_swallow_failure decimalNumeral asciiLower (failingDb "connection refused")
        ⟨"connection refused"⟩).2.2.2.1 (.num 1) .undefined rfl),
    congrArg Outcome.promise
      ((exported_functions_swallow_failure decimalNumeral asciiLower (failingDb "connection refused")
        ⟨"connection refused"⟩).2.2.2.2.1 { city := .str "van" } .undefined rfl),
    congrArg Outcome.promise
      ((exported_functions_swallow_failure decimalNumeral asciiLower (failingDb "connection refused")
        ⟨"connection refused"⟩).2.2.2.2.2 {} rfl)⟩

/-- Claim C7: for every options record and limit, when the execution
collaborator fulfils the request with the row sequence `rs`,
`getAllProperties` resolves with exactly `rs`, unmodified and in the same
order, and writes nothing to the console; the result is never `null`, and for
empty `rs` it is the empty sequence. -/
theorem getAllProperties_returns_rows (numberToString : Int → String) (db : Db) (o : Options) (limit : JSValue)
    (rs : List Row)
    (h : db (getAllPropertiesQuery numberToString o limit).1 (getAllPropertiesQuery numberToString o limit).2 = .ok ⟨rs⟩) :
    getAllProperties numberToString db o limit = ⟨[], .resolved (.rows rs)⟩
    ∧ (getAllProperties numberToString db o limit).promise ≠ .resolved .null
    ∧ (rs = [] → (getAllProperties numberToString db o limit).promise = .resolved (.rows [])) := by
  have hq : getAllProperties numberToString db o limit = ⟨[], .resolved (.rows rs)⟩ := by
    simp only [getAllProperties, h]
  refine ⟨hq, ?_, ?_⟩
  · rw [hq]
    simp
  · intro hrs
    rw [hq, hrs]

/-- Claim C7, witness: a collaborator answering with two rows, and one
answering with none. -/
theorem getAllProperties_returns_rows_witness :
    getAllProperties decimalNumeral (answeringDb [[("id", .num 1)], [("id", .num 2)]])
        { city := .str "van" } (.num 10)
      = ⟨[], .resolved (.rows [[("id", .num 1)], [("id", .num 2)]])⟩
    ∧ (getAllProperties decimalNumeral (answeringDb []) { city := .str "van" } (.num 10)).promise
      = .resolved (.rows []) :=
  ⟨(getAllProperties_returns_rows decimalNumeral (answeringDb [[("id", .num 1)], [("id", .num 2)]])
      { city := .str "van" } (.num 10) _ rfl).1,
    (getAllProperties_returns_rows decimalNumeral (answeringDb []) { city := .str "van" } (.num 10) []
      rfl).2.2 rfl⟩

/-- Claim C8, counterexample: for the empty record with the limit omitted,
`getAllProperties` resolves with `undefined` when the collaborator fails and
with the empty row sequence when it answers with zero rows; the two values
differ. -/
theorem getAllProperties_failure_equals_no_rows_fails :
    (getAllProperties decimalNumeral (failingDb "connection refused") {} .undefined).promise
      = .resolved .undefined
    ∧ (getAllProperties decimalNumeral (answeringDb []) {} .undefined).promise = .resolved (.rows [])
    ∧ (getAllProperties decimalNumeral (failingDb "connection refused") {} .undefined).promise
      ≠ (getAllProperties decimalNumeral (answeringDb []) {} .undefined).promise := by
  refine ⟨rfl, rfl, ?_⟩
  intro h
  have h2 : (Promise.resolved Ret.undefined) = .resolved (.rows []) := h
  cases h2

/-- Claim C8, amended: for every options record and limit, `getAllProperties`
resolves with `undefined` when the execution collaborator fails and with the
empty row sequence when the collaborator succeeds with zero rows; neither
promise rejects, and the two values are different. -/
theorem getAllProperties_failure_differs_from_no_rows (numberToString : Int → String) (dbFail dbEmpty : Db) (o : Options)
    (limit : JSValue) (err : Error)
    (hfail : dbFail (getAllPropertiesQuery numberToString o limit).1 (getAllPropertiesQuery numberToString o limit).2
      = .error err)
    (hempty : dbEmpty (getAllPropertiesQuery numberToString o limit).1 (getAllPropertiesQuery numberToString o limit).2
      = .ok ⟨[]⟩) :
    (getAllProperties numberToString dbFail o limit).promise = .resolved .undefined
    ∧ (getAllProperties numberToString dbEmpty o limit).promise = .resolved (.rows [])
    ∧ (getAllProperties numberToString dbFail o limit).promise ≠ (getAllProperties numberToString dbEmpty o limit).promise := by
  have h1 : (getAllProperties numberToString dbFail o limit).promise = .resolved .undefined := by
    simp only [getAllProperties, hfail]
  have h2 : (getAllProperties numberToString dbEmpty o limit).promise = .resolved (.rows []) := by
    simp only [getAllProperties, hempty]
  refine ⟨h1, h2, ?_⟩
  rw [h1, h2]
  simp

/-- Claim C8, witness: a failing and an empty-handed collaborator on the
record `{minimum_rating: 4}` with limit `10`. -/
theorem getAllProperties_failure_differs_from_no_rows_witness :
    (getAllProperties decimalNumeral (failingDb "timeout") { minimum_rating := .num 4 } (.num 10)).promise
      ≠ (getAllProperties decimalNumeral (answeringDb []) { minimum_rating := .num 4 } (.num 10)).promise :=
  (getAllProperties_failure_differs_from_no_rows decimalNumeral (failingDb "timeout") (answeringDb [])
    { minimum_rating := .num 4 } (.num 10) ⟨"timeout"⟩ rfl rfl).2.2

/-- Claim C9: for every email string, `getUserWithEmail` passes to the
collaborator the fixed query text and, as its single bind parameter, the
lower-cased email, and resolves from the collaborator's answer to that
request; so for any two emails that differ only in letter case it issues
identical requests and returns the same result.  The engine's `toLowerCase`
is taken to lower-case `A`-`Z` and leave every other character unchanged on
strings of ASCII characters, where the two emails are taken from. -/
theorem getUserWithEmail_case_insensitive (toLowerCase : String → String)
    (hEngine : ∀ s, isAscii s = true → toLowerCase s = asciiLower s) (db : Db) :
    (∀ e : String,
      getUserWithEmailQuery toLowerCase e
          = ("\n    SELECT users.*\n    FROM users \n    WHERE email = $1\n    ",
              [JSValue.str (toLowerCase e)])
        ∧ getUserWithEmail toLowerCase db e
          = singleRecordOutcome
              (db "\n    SELECT users.*\n    FROM users \n    WHERE email = $1\n    "
                [JSValue.str (toLowerCase e)]))
    ∧ (∀ e₁ e₂ : String, isAscii e₁ = true → isAscii e₂ = true →
        differOnlyInCase e₁ e₂ = true →
          toLowerCase e₁ = toLowerCase e₂
          ∧ getUserWithEmailQuery toLowerCase e₁ = getUserWithEmailQuery toLowerCase e₂
          ∧ getUserWithEmail toLowerCase db e₁ = getUserWithEmail toLowerCase db e₂) := by
  have hout : ∀ e : String, getUserWithEmail toLowerCase db e
      = singleRecordOutcome
          (db "\n    SELECT users.*\n    FROM users \n    WHERE email = $1\n    "
            [JSValue.str (toLowerCase e)]) := by
    intro e
    simp only [getUserWithEmail, getUserWithEmailQuery]
    cases hdb : db "\n    SELECT users.*\n    FROM users \n    WHERE email = $1\n    "
        [JSValue.str (toLowerCase e)] with
    | error err => rfl
    | ok res =>
      obtain ⟨rows⟩ := res
      cases rows with
      | nil => rfl
      | cons r rest => simp [singleRecordOutcome]
  refine ⟨fun e => ⟨rfl, hout e⟩, ?_⟩
  intro e₁ e₂ h₁ h₂ hcase
  have hlow : toLowerCase e₁ = toLowerCase e₂ := by
    rw [hEngine e₁ h₁, hEngine e₂ h₂]
    exact asciiLower_eq_of_differOnlyInCase e₁ e₂ hcase
  refine ⟨hlow, ?_, ?_⟩
  · simp only [getUserWithEmailQuery, hlow]
  · rw [hout e₁, hout e₂, hlow]

/-- Claim C9, witness: the emails `Bob@Example.COM` and `bob@example.com`
against a collaborator that knows the lower-cased address only; both calls
resolve with the user's row. -/
theorem getUserWithEmail_case_insensitive_witness :
    (isAscii "Bob@Example.COM" = true ∧ isAscii "bob@example.com" = true
      ∧ differOnlyInCase "Bob@Example.COM" "bob@example.com" = true)
    ∧ getUserWithEmail asciiLower
        (fun _ params =>
          if params = [JSValue.str "bob@example.com"] then .ok ⟨[[("id", .num 1)]]⟩
          else .ok ⟨[]⟩) "Bob@Example.COM"
      = getUserWithEmail asciiLower
        (fun _ params =>
          if params = [JSValue.str "bob@example.com"] then .ok ⟨[[("id", .num 1)]]⟩
          else .ok ⟨[]⟩) "bob@example.com"
    ∧ getUserWithEmail asciiLower
        (fun _ params =>
          if params = [JSValue.str "bob@example.com"] then .ok ⟨[[("id", .num 1)]]⟩
          else .ok ⟨[]⟩) "Bob@Example.COM"
      = ⟨[], .resolved (.row [("id", .num 1)])⟩ :=
  ⟨by decide,
    ((getUserWithEmail_case_insensitive asciiLower (fun _ _ => rfl)
      (fun _ params =>
        if params = [JSValue.str "bob@example.com"] then .ok ⟨[[("id", .num 1)]]⟩
        else .ok ⟨[]⟩)).2 "Bob@Example.COM" "bob@example.com"
      (by decide) (by decide) (by decide)).2.2,
    by decide⟩

end LightBnB
